import Mathlib

/-!
Verification of the Archex `process_data.py` transform dispatcher.

The program reads an input file, applies one of four reversal transforms
(pass-through, zlib inflate, LZMA decode, Fernet symmetric decrypt) selected
by an integer method code, checks the transformed length against a
caller-supplied expected size, and writes the result.

Library primitives (zlib.decompress, lzma.decompress,
base64.urlsafe_b64decode, Fernet construction plus decrypt, bytes.decode)
are not part of the repository; they are modelled as abstract functions
collected in a `Libs` structure, where `none` stands for the library call
raising an exception.  Each `process_*` definition below mirrors one Python
function of `src/process_data.py` line by line; `main_run` mirrors the
`__main__` block as a trace of filesystem events, emitted log entries and a
final outcome.
-/

namespace Archex

/-- Python `bytes`: a sequence of byte values. -/
abbrev Bytes := List Nat

/-- The error taxonomy of the specification (§7).  Each tag corresponds to
exactly one `log_error` call site in the source, identified by its fixed
message text. -/
inductive ErrTag where
  | SizeMismatch
  | DecompressionError
  | TruncatedInput
  | InvalidKey
  | DecryptionError
  | InvalidMethod
  | InvalidArgument
  | OutputWriteError
deriving DecidableEq, Repr

/-- One emitted log line: `log_message` produces an `info` entry,
`log_error` an `err` entry.  The `err` entries are annotated with the
taxonomy tag determined by the call site's fixed message text. -/
inductive LogEntry where
  | info (msg : String)
  | err (tag : ErrTag) (msg : String)
deriving DecidableEq, Repr

/-- The library primitives called by the program, abstracted: `none` models
the call raising an exception.
`zlibDecompress` is `zlib.decompress`; `lzmaDecompress` is `lzma.decompress`;
`b64urlDecode` is `base64.urlsafe_b64decode`; `fernetDecrypt key ct` is
`Fernet(key).decrypt(ct)` (a failure of either the constructor or the
decrypt call is `none`); `utf8Decode` is `bytes.decode()`. -/
structure Libs where
  zlibDecompress : Bytes → Option Bytes
  lzmaDecompress : Bytes → Option Bytes
  b64urlDecode : Bytes → Option Bytes
  fernetDecrypt : Bytes → Bytes → Option Bytes
  utf8Decode : Bytes → Option String

/-- `validate_fernet_key` (src lines 24-31): decode the key with
`base64.urlsafe_b64decode`; reject on exception or when the decoded length
is not 16, 24 or 32. -/
def validate_fernet_key (L : Libs) (key : Bytes) : Bool :=
  match L.b64urlDecode key with
  | none => false
  | some decoded_key =>
      decoded_key.length == 16 || decoded_key.length == 24 || decoded_key.length == 32

/-- `process_none` (src lines 34-38): identity transform guarded by the size
check.  `expected_size` is a Python `int`, hence `Int`. -/
def process_none (data : Bytes) (expected_size : Int) :
    Option Bytes × List LogEntry :=
  if (data.length : Int) ≠ expected_size then
    (none, [LogEntry.err ErrTag.SizeMismatch "Data size mismatch for no processing"])
  else
    (some data, [])

/-- `process_zlib` (src lines 41-50): `zlib.decompress`, then the size
check; a `zlib.error` is caught and logged. -/
def process_zlib (L : Libs) (data : Bytes) (expected_size : Int) :
    Option Bytes × List LogEntry :=
  match L.zlibDecompress data with
  | none =>
      (none, [LogEntry.err ErrTag.DecompressionError "Zlib decompression failed"])
  | some decompressed =>
      if (decompressed.length : Int) ≠ expected_size then
        (none, [LogEntry.err ErrTag.SizeMismatch "Zlib decompressed size mismatch"])
      else
        (some decompressed, [])

/-- `process_lzma` (src lines 53-62): `lzma.decompress`, then the size
check; an `lzma.LZMAError` is caught and logged. -/
def process_lzma (L : Libs) (data : Bytes) (expected_size : Int) :
    Option Bytes × List LogEntry :=
  match L.lzmaDecompress data with
  | none =>
      (none, [LogEntry.err ErrTag.DecompressionError "LZMA decompression failed"])
  | some decompressed =>
      if (decompressed.length : Int) ≠ expected_size then
        (none, [LogEntry.err ErrTag.SizeMismatch "LZMA decompressed size mismatch"])
      else
        (some decompressed, [])

/-- `process_fernet` (src lines 65-83): length guard, key extraction and
validation, decrypt, size check, then the success log entry interpolating
`key.decode()`.  Any exception inside the `try` block — `Fernet(key)`,
`f.decrypt(...)`, or `key.decode()` — lands in the single `except` handler
that logs "Fernet decryption failed". -/
def process_fernet (L : Libs) (data : Bytes) (expected_size : Int) :
    Option Bytes × List LogEntry :=
  if data.length < 44 then
    (none, [LogEntry.err ErrTag.TruncatedInput "Fernet data too short for key"])
  else
    if ¬ validate_fernet_key L (data.take 44) then
      (none, [LogEntry.err ErrTag.InvalidKey "Invalid Fernet key"])
    else
      match L.fernetDecrypt (data.take 44) (data.drop 44) with
      | none =>
          (none, [LogEntry.err ErrTag.DecryptionError "Fernet decryption failed"])
      | some decrypted =>
          if (decrypted.length : Int) ≠ expected_size then
            (none, [LogEntry.err ErrTag.SizeMismatch "Fernet decrypted size mismatch"])
          else
            match L.utf8Decode (data.take 44) with
            | none =>
                (none, [LogEntry.err ErrTag.DecryptionError "Fernet decryption failed"])
            | some keyText =>
                (some decrypted, [LogEntry.info ("Decrypted file with key: " ++ keyText)])

/-- The dispatcher `transform(method, data, expected_size)` of the
specification: the `if method == 0 / 1 / 2 / 3 / else` chain of the
`__main__` block (src lines 104-114), with the unknown-method branch
producing the `InvalidMethod` failure. -/
def transform (L : Libs) (method : Int) (data : Bytes) (expected_size : Int) :
    Option Bytes × List LogEntry :=
  if method = 0 then process_none data expected_size
  else if method = 1 then process_zlib L data expected_size
  else if method = 2 then process_lzma L data expected_size
  else if method = 3 then process_fernet L data expected_size
  else (none, [LogEntry.err ErrTag.InvalidMethod "Unknown processing method"])

/-- The "true transformed bytes" of a method, before the size check: the
value whose length the specification calls the true transformed length.
It is assembled from the same library calls the source makes on each
branch, omitting only the terminal length comparison. -/
def transformedBytes (L : Libs) (method : Int) (data : Bytes) : Option Bytes :=
  if method = 0 then some data
  else if method = 1 then L.zlibDecompress data
  else if method = 2 then L.lzmaDecompress data
  else if method = 3 then
    if 44 ≤ data.length ∧ validate_fernet_key L (data.take 44) = true then
      L.fernetDecrypt (data.take 44) (data.drop 44)
    else none
  else none

/-- Decimal digit string to a number; `none` when empty or a non-digit
occurs. -/
def parseDigits (cs : List Char) : Option Nat :=
  if cs ≠ [] ∧ cs.all Char.isDigit then
    some (cs.foldl (fun n c => n * 10 + (c.toNat - 48)) 0)
  else none

/-- Model of the Python builtin `int(str)` as used at src lines 92 and 95:
optional surrounding spaces, optional sign, a nonempty run of decimal
digits; `none` models the `ValueError` the builtin raises otherwise. -/
def pythonInt (s : String) : Option Int :=
  let cs := (((s.toList.dropWhile (· = ' ')).reverse.dropWhile (· = ' ')).reverse)
  match cs with
  | '-' :: rest => (parseDigits rest).map (fun n => -(n : Int))
  | '+' :: rest => (parseDigits rest).map (fun n => (n : Int))
  | rest => (parseDigits rest).map (fun n => (n : Int))

/-- Model of `os.path.dirname`: the prefix up to the last slash, with
trailing slashes stripped unless the prefix is all slashes. -/
def lastSlashIdx (cs : List Char) : Nat :=
  match cs with
  | [] => 0
  | c :: rest =>
      let r := lastSlashIdx rest
      if r > 0 then r + 1 else if c = '/' then 1 else 0

/-- `os.path.dirname(path)` on POSIX: everything before the final slash. -/
def dirname (path : String) : String :=
  let cs := path.toList
  let head := cs.take (lastSlashIdx cs)
  let head :=
    if head ≠ [] ∧ head.any (· ≠ '/') then
      (head.reverse.dropWhile (· = '/')).reverse
    else head
  String.mk head

/-- Filesystem actions performed by the entry point, in order. -/
inductive FsEvent where
  | readInput (path : String)
  | makedirs (dir : String)
  | openOutput (path : String)
  | writeOutput (path : String) (content : Bytes)
deriving DecidableEq, Repr

/-- How the process ends: `exit code`, or abnormal termination by an
unhandled exception. -/
inductive Outcome where
  | exit (code : Nat)
  | crashed
deriving DecidableEq, Repr

/-- The observable behaviour of one invocation. -/
structure RunResult where
  events : List FsEvent
  logs : List LogEntry
  outcome : Outcome
deriving DecidableEq, Repr

/-- The `__main__` block (src lines 85-129).  `argv` is `sys.argv`;
`inputData` is the content of the input file; `writeOk = false` models the
output open/write raising.  `int(sys.argv[1])` and `int(sys.argv[4])`
raising is `crashed` (an unhandled `ValueError`); `os.makedirs('')` on an
output path with empty dirname raises an unhandled `FileNotFoundError`,
hence `crashed`.  The unknown-method branch and the `result is None` exit
are merged: both log once and exit 1 before any filesystem write. -/
def main_run (L : Libs) (argv : List String) (inputData : Bytes)
    (writeOk : Bool) : RunResult :=
  match argv with
  | [_prog, methodArg, inputFile, outputFile, sizeArg] =>
      match pythonInt methodArg with
      | none => ⟨[], [], Outcome.crashed⟩
      | some method =>
          match pythonInt sizeArg with
          | none => ⟨[], [], Outcome.crashed⟩
          | some expected_size =>
              let ev0 : List FsEvent := [FsEvent.readInput inputFile]
              match transform L method inputData expected_size with
              | (none, plogs) => ⟨ev0, plogs, Outcome.exit 1⟩
              | (some res, plogs) =>
                  let d := dirname outputFile
                  if d = "" then ⟨ev0, plogs, Outcome.crashed⟩
                  else if writeOk then
                    ⟨ev0 ++ [FsEvent.makedirs d, FsEvent.openOutput outputFile,
                        FsEvent.writeOutput outputFile res], plogs, Outcome.exit 0⟩
                  else
                    ⟨ev0 ++ [FsEvent.makedirs d, FsEvent.openOutput outputFile],
                      plogs ++ [LogEntry.err ErrTag.OutputWriteError
                        "Failed to write output file"],
                      Outcome.exit 1⟩
  | _ => ⟨[], [], Outcome.exit 1⟩

/-- A concrete instantiation of the library primitives used to evaluate the
theorems on concrete inputs: both decompressors are the identity,
decoding a 44-byte key yields 32 bytes, decryption is the identity on the
ciphertext, and the key decodes to the text "KEY". -/
def Ltest : Libs where
  zlibDecompress := fun bs => some bs
  lzmaDecompress := fun bs => some bs
  b64urlDecode := fun bs => if bs.length = 44 then some (List.replicate 32 0) else none
  fernetDecrypt := fun _ ct => some ct
  utf8Decode := fun _ => some "KEY"

/-- A library instantiation whose base64url decoding always raises, so
every key fails validation. -/
def LbadKey : Libs where
  zlibDecompress := fun bs => some bs
  lzmaDecompress := fun bs => some bs
  b64urlDecode := fun _ => none
  fernetDecrypt := fun _ ct => some ct
  utf8Decode := fun _ => some "KEY"

/-- A library instantiation whose decrypt call always raises, while key
validation still succeeds on 44-byte keys. -/
def LnoDecrypt : Libs where
  zlibDecompress := fun bs => some bs
  lzmaDecompress := fun bs => some bs
  b64urlDecode := fun bs => if bs.length = 44 then some (List.replicate 32 0) else none
  fernetDecrypt := fun _ _ => none
  utf8Decode := fun _ => some "KEY"

/-- Claim C3: for the NONE method, `transform(NONE, data, len(data))`
returns `data` unchanged, and for any `n ≠ len(data)` it fails with
`SizeMismatch`. -/
theorem none_identity_law (L : Libs) (data : Bytes) (n : Int) :
    transform L 0 data (data.length : Int) = (some data, []) ∧
    (n ≠ (data.length : Int) →
      transform L 0 data n =
        (none, [LogEntry.err ErrTag.SizeMismatch "Data size mismatch for no processing"])) := by
  constructor
  · simp [transform, process_none]
  · intro hn
    simp [transform, process_none, Ne.symm hn]

/-- Witness for `none_identity_law` at `data = [7, 8, 9]`, `n = 5`. -/
theorem none_identity_law_witness :
    transform Ltest 0 [7, 8, 9] 3 = (some [7, 8, 9], []) ∧
    transform Ltest 0 [7, 8, 9] 5 =
      (none, [LogEntry.err ErrTag.SizeMismatch "Data size mismatch for no processing"]) := by
  refine ⟨(none_identity_law Ltest [7, 8, 9] 5).1, ?_⟩
  exact (none_identity_law Ltest [7, 8, 9] 5).2 (by decide)

/-- Claim C6: key validation is exactly length-based base64url
decodability: `validate_fernet_key` returns true precisely when the key
decodes without error to a value of exactly 16, 24 or 32 bytes. -/
theorem validate_key_characterization (L : Libs) (key : Bytes) :
    validate_fernet_key L key = true ↔
      ∃ d, L.b64urlDecode key = some d ∧
        (d.length = 16 ∨ d.length = 24 ∨ d.length = 32) := by
  unfold validate_fernet_key
  cases h : L.b64urlDecode key with
  | none => simp
  | some d => simp [h, Nat.beq_eq, or_assoc]

/-- Claim C2: the SYMMETRIC failure cases are decided in order:
fewer than 44 bytes ⇒ `TruncatedInput`; invalid key ⇒ `InvalidKey`
(decryption is never attempted: the result is a constant independent of the
decrypt primitive); decrypt failure ⇒ `DecryptionError`; wrong decrypted
length ⇒ `SizeMismatch`. -/
theorem fernet_failure_order (L : Libs) (data : Bytes) (es : Int) :
    (data.length < 44 →
      process_fernet L data es =
        (none, [LogEntry.err ErrTag.TruncatedInput "Fernet data too short for key"])) ∧
    (44 ≤ data.length → validate_fernet_key L (data.take 44) = false →
      process_fernet L data es =
        (none, [LogEntry.err ErrTag.InvalidKey "Invalid Fernet key"])) ∧
    (44 ≤ data.length → validate_fernet_key L (data.take 44) = true →
      L.fernetDecrypt (data.take 44) (data.drop 44) = none →
      process_fernet L data es =
        (none, [LogEntry.err ErrTag.DecryptionError "Fernet decryption failed"])) ∧
    (∀ dec, 44 ≤ data.length → validate_fernet_key L (data.take 44) = true →
      L.fernetDecrypt (data.take 44) (data.drop 44) = some dec →
      (dec.length : Int) ≠ es →
      process_fernet L data es =
        (none, [LogEntry.err ErrTag.SizeMismatch "Fernet decrypted size mismatch"])) := by
  refine ⟨?_, ?_, ?_, ?_⟩
  · intro h
    simp [process_fernet, h]
  · intro h hv
    simp [process_fernet, Nat.not_lt.mpr h, hv]
  · intro h hv hd
    simp [process_fernet, Nat.not_lt.mpr h, hv, hd]
  · intro dec h hv hd hlen
    simp [process_fernet, Nat.not_lt.mpr h, hv, hd, hlen]

/-- Witness for `fernet_failure_order`: each of the four branches evaluated
at a concrete input (a too-short input; a 44-byte key failing validation; a
decrypt failure; a decrypted length mismatch). -/
theorem fernet_failure_order_witness :
    process_fernet Ltest [0, 1, 2] 0 =
      (none, [LogEntry.err ErrTag.TruncatedInput "Fernet data too short for key"]) ∧
    process_fernet LbadKey (List.replicate 44 65) 0 =
      (none, [LogEntry.err ErrTag.InvalidKey "Invalid Fernet key"]) ∧
    process_fernet LnoDecrypt (List.replicate 44 65) 0 =
      (none, [LogEntry.err ErrTag.DecryptionError "Fernet decryption failed"]) ∧
    process_fernet Ltest (List.replicate 45 65) 7 =
      (none, [LogEntry.err ErrTag.SizeMismatch "Fernet decrypted size mismatch"]) := by
  refine ⟨(fernet_failure_order Ltest [0, 1, 2] 0).1 (by decide), ?_, ?_, ?_⟩
  · exact (fernet_failure_order LbadKey (List.replicate 44 65) 0).2.1
      (by decide) (by decide)
  · exact (fernet_failure_order LnoDecrypt (List.replicate 44 65) 0).2.2.1
      (by decide) (by decide) (by decide)
  · exact (fernet_failure_order Ltest (List.replicate 45 65) 7).2.2.2 [65]
      (by decide) (by decide) (by decide) (by decide)

/-- On success, `process_none` returns bytes of the expected length; when
the data length differs from the expectation it fails with the
`SizeMismatch` log line. -/
lemma process_none_size (data : Bytes) (es : Int) :
    (∀ bs, (process_none data es).1 = some bs → (bs.length : Int) = es) ∧
    ((data.length : Int) ≠ es →
      process_none data es =
        (none, [LogEntry.err ErrTag.SizeMismatch "Data size mismatch for no processing"])) := by
  constructor
  · intro bs h
    unfold process_none at h
    split at h
    · simp at h
    · rename_i hlen
      obtain rfl : data = bs := by simpa using h
      exact not_not.mp hlen
  · intro hlen
    simp [process_none, hlen]

/-- On success, `process_zlib` returns bytes of the expected length; when
decompression succeeds with the wrong length it fails with `SizeMismatch`. -/
lemma process_zlib_size (L : Libs) (data : Bytes) (es : Int) :
    (∀ bs, (process_zlib L data es).1 = some bs → (bs.length : Int) = es) ∧
    (∀ bs, L.zlibDecompress data = some bs → (bs.length : Int) ≠ es →
      process_zlib L data es =
        (none, [LogEntry.err ErrTag.SizeMismatch "Zlib decompressed size mismatch"])) := by
  constructor
  · intro bs h
    unfold process_zlib at h
    split at h
    · simp at h
    · rename_i dec hdec
      split at h
      · simp at h
      · rename_i hlen
        obtain rfl : dec = bs := by simpa using h
        exact not_not.mp hlen
  · intro bs hdec hlen
    simp [process_zlib, hdec, hlen]

/-- On success, `process_lzma` returns bytes of the expected length; when
decoding succeeds with the wrong length it fails with `SizeMismatch`. -/
lemma process_lzma_size (L : Libs) (data : Bytes) (es : Int) :
    (∀ bs, (process_lzma L data es).1 = some bs → (bs.length : Int) = es) ∧
    (∀ bs, L.lzmaDecompress data = some bs → (bs.length : Int) ≠ es →
      process_lzma L data es =
        (none, [LogEntry.err ErrTag.SizeMismatch "LZMA decompressed size mismatch"])) := by
  constructor
  · intro bs h
    unfold process_lzma at h
    split at h
    · simp at h
    · rename_i dec hdec
      split at h
      · simp at h
      · rename_i hlen
        obtain rfl : dec = bs := by simpa using h
        exact not_not.mp hlen
  · intro bs hdec hlen
    simp [process_lzma, hdec, hlen]

/-- On success, `process_fernet` returns bytes of the expected length; when
decryption succeeds with the wrong length it fails with `SizeMismatch`. -/
lemma process_fernet_size (L : Libs) (data : Bytes) (es : Int) :
    (∀ bs, (process_fernet L data es).1 = some bs → (bs.length : Int) = es) ∧
    (∀ bs, 44 ≤ data.length → validate_fernet_key L (data.take 44) = true →
      L.fernetDecrypt (data.take 44) (data.drop 44) = some bs → (bs.length : Int) ≠ es →
      process_fernet L data es =
        (none, [LogEntry.err ErrTag.SizeMismatch "Fernet decrypted size mismatch"])) := by
  constructor
  · intro bs h
    unfold process_fernet at h
    split at h
    · simp at h
    · split at h
      · simp at h
      · split at h
        · simp at h
        · rename_i dec hdec
          split at h
          · simp at h
          · rename_i hlen
            split at h
            · simp at h
            · obtain rfl : dec = bs := by simpa using h
              exact not_not.mp hlen
  · intro bs h44 hv hdec hlen
    simp [process_fernet, Nat.not_lt.mpr h44, hv, hdec, hlen]

/-- Claim C1: for every method in {NONE, ZLIB, LZMA, SYMMETRIC}, whenever
the transform returns bytes their length equals `expected_size`, and
whenever the successfully transformed bytes have a different length the
transform instead fails with a `SizeMismatch` log entry. -/
theorem size_oracle (L : Libs) (m : Int) (data : Bytes) (es : Int) :
    (∀ bs, (transform L m data es).1 = some bs → (bs.length : Int) = es) ∧
    (∀ bs, transformedBytes L m data = some bs → (bs.length : Int) ≠ es →
      (transform L m data es).1 = none ∧
      ∃ msg, (transform L m data es).2 = [LogEntry.err ErrTag.SizeMismatch msg]) := by
  by_cases h0 : m = 0
  · subst h0
    refine ⟨fun bs h => (process_none_size data es).1 bs (by simpa [transform] using h), ?_⟩
    intro bs hb hlen
    obtain rfl : data = bs := by simpa [transformedBytes] using hb
    have h := (process_none_size data es).2 hlen
    simp [transform, h]
  by_cases h1 : m = 1
  · subst h1
    refine ⟨fun bs h => (process_zlib_size L data es).1 bs (by simpa [transform] using h), ?_⟩
    intro bs hb hlen
    have hb' : L.zlibDecompress data = some bs := by simpa [transformedBytes] using hb
    have h := (process_zlib_size L data es).2 bs hb' hlen
    simp [transform, h]
  by_cases h2 : m = 2
  · subst h2
    refine ⟨fun bs h => (process_lzma_size L data es).1 bs (by simpa [transform] using h), ?_⟩
    intro bs hb hlen
    have hb' : L.lzmaDecompress data = some bs := by simpa [transformedBytes] using hb
    have h := (process_lzma_size L data es).2 bs hb' hlen
    simp [transform, h]
  by_cases h3 : m = 3
  · subst h3
    refine ⟨fun bs h => (process_fernet_size L data es).1 bs (by simpa [transform] using h), ?_⟩
    intro bs hb hlen
    simp only [transformedBytes] at hb
    norm_num at hb
    have h := (process_fernet_size L data es).2 bs hb.1.1 hb.1.2 hb.2 hlen
    simp [transform, h]
  · refine ⟨fun bs h => ?_, fun bs hb hlen => ?_⟩
    · simp [transform, h0, h1, h2, h3] at h
    · simp [transformedBytes, h0, h1, h2, h3] at hb

/-- Witness for `size_oracle`: the NONE branch at `data = [1, 2]`, once
with the matching size 2 and once with the mismatching size 5. -/
theorem size_oracle_witness :
    ((([1, 2] : Bytes).length : Int) = 2) ∧
    ((transform Ltest 0 [1, 2] 5).1 = none ∧
      ∃ msg, (transform Ltest 0 [1, 2] 5).2 = [LogEntry.err ErrTag.SizeMismatch msg]) := by
  constructor
  · exact (size_oracle Ltest 0 [1, 2] 2).1 [1, 2] (by decide)
  · exact (size_oracle Ltest 0 [1, 2] 5).2 [1, 2] (by decide) (by decide)

/-- Claim C4: round-trip law — whenever the (library-guaranteed) inverse
property `decompress (compress p) = p` holds, decompressing a compressed
payload with its true length as the expected size returns the payload, for
both the ZLIB and the LZMA branch. -/
theorem roundtrip_law (L : Libs) (compressZ compressX : Bytes → Bytes) (p : Bytes)
    (hz : L.zlibDecompress (compressZ p) = some p)
    (hx : L.lzmaDecompress (compressX p) = some p) :
    transform L 1 (compressZ p) (p.length : Int) = (some p, []) ∧
    transform L 2 (compressX p) (p.length : Int) = (some p, []) := by
  constructor
  · simp [transform, process_zlib, hz]
  · simp [transform, process_lzma, hx]

/-- Witness for `roundtrip_law`: the identity compressor against the
identity decompressors of `Ltest`, at payload `[5, 6]`. -/
theorem roundtrip_law_witness :
    transform Ltest 1 (id [5, 6]) ((([5, 6] : Bytes).length : Int)) = (some [5, 6], []) ∧
    transform Ltest 2 (id [5, 6]) ((([5, 6] : Bytes).length : Int)) = (some [5, 6], []) :=
  roundtrip_law Ltest id id [5, 6] (by decide) (by decide)

/-- `process_fernet` either fails with a single error log line, or succeeds
with the single informational line interpolating the decoded key text. -/
lemma process_fernet_cases (L : Libs) (data : Bytes) (es : Int) :
    (∃ t msg, process_fernet L data es = (none, [LogEntry.err t msg])) ∨
    (∃ dec keyText, L.utf8Decode (data.take 44) = some keyText ∧
      process_fernet L data es =
        (some dec, [LogEntry.info ("Decrypted file with key: " ++ keyText)])) := by
  unfold process_fernet
  split
  · exact Or.inl ⟨_, _, rfl⟩
  split
  · exact Or.inl ⟨_, _, rfl⟩
  split
  · exact Or.inl ⟨_, _, rfl⟩
  split
  · exact Or.inl ⟨_, _, rfl⟩
  split
  · exact Or.inl ⟨_, _, rfl⟩
  · rename_i keyText hk
    exact Or.inr ⟨_, keyText, hk, rfl⟩

/-- Every transform outcome is one of: failure with a single error line,
success with no log line, or success with the single key-revealing
informational line of the SYMMETRIC branch. -/
lemma transform_cases (L : Libs) (m : Int) (data : Bytes) (es : Int) :
    (∃ t msg, transform L m data es = (none, [LogEntry.err t msg])) ∨
    (∃ res, transform L m data es = (some res, [])) ∨
    (∃ res keyText, transform L m data es =
      (some res, [LogEntry.info ("Decrypted file with key: " ++ keyText)])) := by
  unfold transform
  split
  · unfold process_none
    split
    · exact Or.inl ⟨_, _, rfl⟩
    · exact Or.inr (Or.inl ⟨_, rfl⟩)
  split
  · unfold process_zlib
    split
    · exact Or.inl ⟨_, _, rfl⟩
    split
    · exact Or.inl ⟨_, _, rfl⟩
    · exact Or.inr (Or.inl ⟨_, rfl⟩)
  split
  · unfold process_lzma
    split
    · exact Or.inl ⟨_, _, rfl⟩
    split
    · exact Or.inl ⟨_, _, rfl⟩
    · exact Or.inr (Or.inl ⟨_, rfl⟩)
  split
  · rcases process_fernet_cases L data es with ⟨t, msg, h⟩ | ⟨dec, keyText, _, h⟩
    · exact Or.inl ⟨t, msg, h⟩
    · exact Or.inr (Or.inr ⟨dec, keyText, h⟩)
  · exact Or.inl ⟨_, _, rfl⟩

/-- A successful transform has emitted no error-level log entry. -/
lemma transform_success_no_err (L : Libs) (m : Int) (data : Bytes) (es : Int)
    (res : Bytes) (h : (transform L m data es).1 = some res) :
    ∀ t msg, LogEntry.err t msg ∉ (transform L m data es).2 := by
  intro t msg
  rcases transform_cases L m data es with ⟨t2, m2, he⟩ | ⟨r, he⟩ | ⟨r, k, he⟩ <;>
    rw [he] at h ⊢ <;> simp at h ⊢

/-- Claim C9: every successful SYMMETRIC invocation emits exactly one
informational log entry, containing the key material decoded as text; no
failing SYMMETRIC invocation emits any informational entry. -/
theorem fernet_key_log_on_success (L : Libs) (data : Bytes) (es : Int) :
    (∀ out logs, process_fernet L data es = (some out, logs) →
      ∃ keyText, L.utf8Decode (data.take 44) = some keyText ∧
        logs = [LogEntry.info ("Decrypted file with key: " ++ keyText)]) ∧
    (∀ logs, process_fernet L data es = (none, logs) →
      ∀ msg, LogEntry.info msg ∉ logs) := by
  rcases process_fernet_cases L data es with ⟨t, m, he⟩ | ⟨dec, keyText, hk, he⟩
  · constructor
    · intro out logs hh
      rw [he] at hh
      simp at hh
    · intro logs hh msg
      rw [he] at hh
      obtain rfl : [LogEntry.err t m] = logs := by simpa using hh
      simp
  · constructor
    · intro out logs hh
      rw [he] at hh
      obtain ⟨-, rfl⟩ : dec = out ∧
          [LogEntry.info ("Decrypted file with key: " ++ keyText)] = logs := by
        simpa using hh
      exact ⟨keyText, hk, rfl⟩
    · intro logs hh
      rw [he] at hh
      simp at hh

/-- Witness for `fernet_key_log_on_success`: a successful decryption of a
46-byte input (44-byte key, 2-byte ciphertext) yields the informational
key line; and the failing empty-input run emits no informational line. -/
theorem fernet_key_log_witness :
    (∃ keyText,
      Ltest.utf8Decode ((List.replicate 44 65 ++ [9, 9] : Bytes).take 44) = some keyText ∧
        [LogEntry.info "Decrypted file with key: KEY"] =
          [LogEntry.info ("Decrypted file with key: " ++ keyText)]) ∧
    (∀ msg, LogEntry.info msg ∉
        [LogEntry.err ErrTag.TruncatedInput "Fernet data too short for key"]) := by
  constructor
  · exact (fernet_key_log_on_success Ltest (List.replicate 44 65 ++ [9, 9]) 2).1
      [9, 9] [LogEntry.info "Decrypted file with key: KEY"] (by decide)
  · exact (fernet_key_log_on_success Ltest [] 0).2
      [LogEntry.err ErrTag.TruncatedInput "Fernet data too short for key"] (by decide)

/-- Claim C7: any method selector outside {0, 1, 2, 3} performs no
transform and yields the `InvalidMethod` failure — in particular
`transform 99 [] 0` — and the entry point then logs exactly the line
"Unknown processing method" and exits with code 1, touching no file beyond
the input read. -/
theorem unknown_method (L : Libs) (m : Int) (data : Bytes) (es : Int)
    (hm : ¬(m = 0 ∨ m = 1 ∨ m = 2 ∨ m = 3)) :
    transform L m data es =
      (none, [LogEntry.err ErrTag.InvalidMethod "Unknown processing method"]) ∧
    ∀ prog methodArg inputFile outputFile sizeArg w,
      pythonInt methodArg = some m → pythonInt sizeArg = some es →
      main_run L [prog, methodArg, inputFile, outputFile, sizeArg] data w =
        ⟨[FsEvent.readInput inputFile],
          [LogEntry.err ErrTag.InvalidMethod "Unknown processing method"],
          Outcome.exit 1⟩ := by
  push_neg at hm
  obtain ⟨h0, h1, h2, h3⟩ := hm
  have ht : transform L m data es =
      (none, [LogEntry.err ErrTag.InvalidMethod "Unknown processing method"]) := by
    simp [transform, h0, h1, h2, h3]
  refine ⟨ht, ?_⟩
  intro prog methodArg inputFile outputFile sizeArg w hma hsa
  simp [main_run, hma, hsa, ht]

/-- Witness for `unknown_method` at selector 99, empty input, size 0. -/
theorem unknown_method_witness :
    transform Ltest 99 [] 0 =
      (none, [LogEntry.err ErrTag.InvalidMethod "Unknown processing method"]) ∧
    main_run Ltest ["prog", "99", "in.bin", "out/out.bin", "0"] [] true =
      ⟨[FsEvent.readInput "in.bin"],
        [LogEntry.err ErrTag.InvalidMethod "Unknown processing method"],
        Outcome.exit 1⟩ := by
  have h := unknown_method Ltest 99 [] 0 (by decide)
  exact ⟨h.1, h.2 "prog" "99" "in.bin" "out/out.bin" "0" true (by decide) (by decide)⟩

/-- Claim C8: whenever the transform fails — any method, any cause — the
entry point performs no filesystem action beyond the input read: the output
file is neither opened nor written, and the process exits with code 1. -/
theorem no_output_on_failure (L : Libs)
    (prog methodArg inputFile outputFile sizeArg : String)
    (data : Bytes) (w : Bool) (m es : Int)
    (hm : pythonInt methodArg = some m) (hes : pythonInt sizeArg = some es)
    (hfail : (transform L m data es).1 = none) :
    (main_run L [prog, methodArg, inputFile, outputFile, sizeArg] data w).events =
      [FsEvent.readInput inputFile] ∧
    (main_run L [prog, methodArg, inputFile, outputFile, sizeArg] data w).outcome =
      Outcome.exit 1 ∧
    ∀ p c,
      FsEvent.openOutput p ∉
        (main_run L [prog, methodArg, inputFile, outputFile, sizeArg] data w).events ∧
      FsEvent.writeOutput p c ∉
        (main_run L [prog, methodArg, inputFile, outputFile, sizeArg] data w).events := by
  rcases he : transform L m data es with ⟨r, lg⟩
  rw [he] at hfail
  simp only at hfail
  subst hfail
  simp [main_run, hm, hes, he]

/-- Witness for `no_output_on_failure`: a NONE run with the wrong expected
size performs only the input read and exits 1. -/
theorem no_output_on_failure_witness :
    (main_run Ltest ["p", "0", "in.bin", "d/out.bin", "5"] [1] true).events =
      [FsEvent.readInput "in.bin"] ∧
    (main_run Ltest ["p", "0", "in.bin", "d/out.bin", "5"] [1] true).outcome =
      Outcome.exit 1 ∧
    ∀ p c,
      FsEvent.openOutput p ∉
        (main_run Ltest ["p", "0", "in.bin", "d/out.bin", "5"] [1] true).events ∧
      FsEvent.writeOutput p c ∉
        (main_run Ltest ["p", "0", "in.bin", "d/out.bin", "5"] [1] true).events :=
  no_output_on_failure Ltest "p" "0" "in.bin" "d/out.bin" "5" [1] true 0 5
    (by decide) (by decide) (by decide)

/-- Claim C10: when the transform succeeds but the output path has no
directory component (`os.path.dirname` yields the empty string), the
`os.makedirs('')` call raises outside any try block: the process
terminates abnormally, nothing beyond the input read touches the
filesystem, and no `OutputWriteError` entry is logged. -/
theorem bare_output_path_crash (L : Libs)
    (prog methodArg inputFile outputFile sizeArg : String)
    (data : Bytes) (w : Bool) (m es : Int) (res : Bytes)
    (hm : pythonInt methodArg = some m) (hes : pythonInt sizeArg = some es)
    (hsucc : (transform L m data es).1 = some res)
    (hdir : dirname outputFile = "") :
    (main_run L [prog, methodArg, inputFile, outputFile, sizeArg] data w).outcome =
      Outcome.crashed ∧
    (main_run L [prog, methodArg, inputFile, outputFile, sizeArg] data w).events =
      [FsEvent.readInput inputFile] ∧
    ∀ msg, LogEntry.err ErrTag.OutputWriteError msg ∉
      (main_run L [prog, methodArg, inputFile, outputFile, sizeArg] data w).logs := by
  have hnoerr := transform_success_no_err L m data es res hsucc
  rcases he : transform L m data es with ⟨r, lg⟩
  rw [he] at hsucc hnoerr
  simp only at hsucc hnoerr
  subst hsucc
  simp [main_run, hm, hes, he, hdir]
  intro msg
  exact hnoerr ErrTag.OutputWriteError msg

/-- Witness for `bare_output_path_crash`: a successful NONE run whose
output path is the bare filename "out.bin" crashes without writing. -/
theorem bare_output_path_crash_witness :
    (main_run Ltest ["p", "0", "in.bin", "out.bin", "1"] [7] true).outcome =
      Outcome.crashed ∧
    (main_run Ltest ["p", "0", "in.bin", "out.bin", "1"] [7] true).events =
      [FsEvent.readInput "in.bin"] ∧
    ∀ msg, LogEntry.err ErrTag.OutputWriteError msg ∉
      (main_run Ltest ["p", "0", "in.bin", "out.bin", "1"] [7] true).logs :=
  bare_output_path_crash Ltest "p" "0" "in.bin" "out.bin" "1" [7] true 0 1 [7]
    (by decide) (by decide) (by decide) (by decide)

/-- Counterexample to claim C5 as stated: the caller-supplied value "-5"
does not represent a non-negative integer, yet the boundary accepts it
(`int("-5")` succeeds) and the program dispatches to the NONE transform,
failing there with `SizeMismatch` — not with an `InvalidArgument` failure
prior to dispatch. -/
theorem negative_size_reaches_dispatch :
    pythonInt "-5" = some (-5) ∧
    main_run Ltest ["prog", "0", "in.bin", "out/f.bin", "-5"] [1, 2, 3] true =
      ⟨[FsEvent.readInput "in.bin"],
        [LogEntry.err ErrTag.SizeMismatch "Data size mismatch for no processing"],
        Outcome.exit 1⟩ ∧
    ∀ msg, LogEntry.err ErrTag.InvalidArgument msg ∉
      (main_run Ltest ["prog", "0", "in.bin", "out/f.bin", "-5"] [1, 2, 3] true).logs := by
  refine ⟨by decide, by decide, ?_⟩
  intro msg
  have h : main_run Ltest ["prog", "0", "in.bin", "out/f.bin", "-5"] [1, 2, 3] true =
      ⟨[FsEvent.readInput "in.bin"],
        [LogEntry.err ErrTag.SizeMismatch "Data size mismatch for no processing"],
        Outcome.exit 1⟩ := by decide
  rw [h]
  simp

/-- Claim C5 amended: a non-integer `expected_size` string makes `int()`
raise an unhandled `ValueError`, so the process terminates abnormally
before reading or dispatching anything (no `InvalidArgument` log entry
exists); a negative integer, however, is accepted at the boundary and is
passed to the dispatched transform, which then fails with `SizeMismatch`. -/
theorem expected_size_boundary (L : Libs)
    (prog inputFile outputFile sizeArg : String) (data : Bytes) (w : Bool) :
    (pythonInt sizeArg = none →
      main_run L [prog, "0", inputFile, outputFile, sizeArg] data w =
        ⟨[], [], Outcome.crashed⟩) ∧
    (∀ n : Int, n < 0 → pythonInt sizeArg = some n →
      main_run L [prog, "0", inputFile, outputFile, sizeArg] data w =
        ⟨[FsEvent.readInput inputFile],
          [LogEntry.err ErrTag.SizeMismatch "Data size mismatch for no processing"],
          Outcome.exit 1⟩) := by
  have h0 : pythonInt "0" = some 0 := by decide
  constructor
  · intro hn
    simp [main_run, h0, hn]
  · intro n hneg hn
    have hlen : (data.length : Int) ≠ n := by
      have : (0 : Int) ≤ (data.length : Int) := Int.natCast_nonneg data.length
      omega
    have ht : transform L 0 data n =
        (none, [LogEntry.err ErrTag.SizeMismatch "Data size mismatch for no processing"]) := by
      simp [transform, process_none, hlen]
    simp [main_run, h0, hn, ht]

/-- Witness for `expected_size_boundary`: the non-integer size "abc"
crashes before dispatch; the negative size "-5" dispatches and fails with
`SizeMismatch`. -/
theorem expected_size_boundary_witness :
    main_run Ltest ["p", "0", "a.bin", "d/b.bin", "abc"] [1] true =
      ⟨[], [], Outcome.crashed⟩ ∧
    main_run Ltest ["p", "0", "a.bin", "d/b.bin", "-5"] [1] true =
      ⟨[FsEvent.readInput "a.bin"],
        [LogEntry.err ErrTag.SizeMismatch "Data size mismatch for no processing"],
        Outcome.exit 1⟩ := by
  constructor
  · exact (expected_size_boundary Ltest "p" "a.bin" "d/b.bin" "abc" [1] true).1 (by decide)
  · exact (expected_size_boundary Ltest "p" "a.bin" "d/b.bin" "-5" [1] true).2 (-5)
      (by decide) (by decide)

end Archex
